import Mathlib

/-!
Verification development for the two-factor-authentication lifecycle of the
calmora-well repository, embedded from src/src/components/2FA.tsx.

The component manages one row of the user_2fa table per user (columns used by
the code: secret, is_enabled, backup_codes). The table schema itself is not in
the repository sources; the record type below follows the data model of the
design document (section 3): secret is nullable (null until enrollment starts),
is_enabled is a boolean, backup_codes is a list of strings.

Randomness: Math.random() yields a double in [0, 1); every such double is
k / 2^53 for some natural k < 2^53. A random stream is modelled as a function
from call index to numerator k (reduced mod 2^53).
-/

namespace Calmora2FA

/-- One row of the user_2fa table, as read and written by the component.
The schema is not under the repository sources; the nullable secret follows
the data model of the design document. -/
structure UserTwoFARow where
  secret : Option String
  is_enabled : Bool
  backup_codes : List String
deriving DecidableEq, Repr

/-- Numerators of Math.random() range over [0, 2^53). -/
def jsRandMax : Nat := 2 ^ 53

/-- The i-th Math.random() draw of a stream, as a numerator below 2^53. -/
def mathRandom (rnd : Nat → Nat) (i : Nat) : Nat := rnd i % jsRandMax

/-- The 32-symbol alphabet used by generateSecret in 2FA.tsx. -/
def totpSecretChars : List Char := "ABCDEFGHIJKLMNOPQRSTUVWXYZ234567".data

/-- generateSecret from 2FA.tsx: 32 draws of
chars.charAt(Math.floor(Math.random() * chars.length)); Math.floor(k/2^53 * 32)
is k * 32 / 2^53 in exact arithmetic. -/
def generateSecret (rnd : Nat → Nat) : String :=
  String.mk ((List.range 32).map fun i =>
    totpSecretChars.getD (mathRandom rnd i * 32 / jsRandMax) 'A')

/-- Lower-case base-36 digit alphabet used by Number.prototype.toString(36). -/
def base36Chars : List Char := "0123456789abcdefghijklmnopqrstuvwxyz".data

/-- Fractional base-36 digits of r / 2^53, most significant first, stopping
when the remainder is exhausted (JS prints no trailing zeros). The exact
expansion of k / 2^53 terminates within 27 digits because 2^54 divides 36^27,
so fuel 27 never truncates a nonzero tail. -/
def fracDigitsBase36 : Nat → Nat → List Nat
  | 0, _ => []
  | fuel + 1, r =>
    if r = 0 then []
    else r * 36 / jsRandMax :: fracDigitsBase36 fuel (r * 36 % jsRandMax)

/-- One backup code from one Math.random() numerator k:
Math.random().toString(36).substring(2, 10).toUpperCase() keeps at most the
first 8 fractional base-36 digits, upper-cased. -/
def backupCode (k : Nat) : String :=
  String.mk (((fracDigitsBase36 27 k).take 8).map fun d =>
    (base36Chars.getD d '0').toUpper)

/-- generateBackupCodes from 2FA.tsx: a loop of 8 pushes, one Math.random()
draw per code, with no uniqueness check. -/
def generateBackupCodes (rnd : Nat → Nat) : List String :=
  (List.range 8).map fun i => backupCode (mathRandom rnd i)

/-- Storage failure of a supabase read, as observed by the component. -/
inductive DbReadError where
  | storageUnavailable : String → DbReadError
deriving DecidableEq, Repr

/-- checkTwoFactorStatus from 2FA.tsx: selects is_enabled for the user with
maybeSingle. On error the function logs to the console and returns early, so
the in-memory flag keeps its previous value and no error value reaches the
caller; on success it becomes data?.is_enabled || false. The returned Bool is
the updated component flag. -/
def checkTwoFactorStatus (res : Except DbReadError (Option UserTwoFARow))
    (prevIsEnabled : Bool) : Bool :=
  match res with
  | Except.error _ => prevIsEnabled
  | Except.ok data => (data.map fun r => r.is_enabled).getD false

/-- enableTwoFactor from 2FA.tsx: generates a fresh secret and upserts
(user_id, secret, is_enabled := false), keyed by user_id. On conflict the
upsert updates only the listed columns, so backup_codes is untouched; a fresh
insert starts with an empty backup_codes column. Returns the new database row
and the generated secret. -/
def enableTwoFactor (db : Option UserTwoFARow) (rnd : Nat → Nat) :
    Option UserTwoFARow × String :=
  let secret := generateSecret rnd
  match db with
  | some row => (some { row with secret := some secret, is_enabled := false }, secret)
  | none => (some { secret := some secret, is_enabled := false, backup_codes := [] }, secret)

/-- Outcome of verifyAndEnable as seen by the caller: the silent early return
on an empty code, the destructive Verification-failed toast, or the success
toast together with the backup codes handed to the UI. -/
inductive VerifyOutcome where
  | noop : VerifyOutcome
  | verificationFailed : String → VerifyOutcome
  | success : List String → VerifyOutcome
deriving DecidableEq, Repr

/-- The format check of verifyAndEnable: the code is rejected unless
verificationCode.length === 6 and /^\d+$/ matches (all ASCII digits). -/
def isSixDigitCode (code : String) : Bool :=
  code.length == 6 && code.data.all Char.isDigit

/-- verifyAndEnable from 2FA.tsx. Empty code: silent early return. Invalid
format: throws before any database call, caught as a Verification-failed
toast. Otherwise: generates the backup codes and updates
(is_enabled := true, backup_codes := codes) on the row matching user_id; an
update matching zero rows is not an error, so with no record the code still
reports success. No state check and no time input anywhere. -/
def verifyAndEnable (db : Option UserTwoFARow) (verificationCode : String)
    (rnd : Nat → Nat) : Option UserTwoFARow × VerifyOutcome :=
  if verificationCode = "" then
    (db, VerifyOutcome.noop)
  else if isSixDigitCode verificationCode = false then
    (db, VerifyOutcome.verificationFailed "Please enter a valid 6-digit code")
  else
    match db with
    | some row =>
        (some { row with is_enabled := true,
                         backup_codes := generateBackupCodes rnd },
         VerifyOutcome.success (generateBackupCodes rnd))
    | none => (none, VerifyOutcome.success (generateBackupCodes rnd))

/-- disableTwoFactor from 2FA.tsx: updates is_enabled := false on the row
matching user_id; the secret and backup_codes columns are not touched. -/
def disableTwoFactor (db : Option UserTwoFARow) : Option UserTwoFARow :=
  match db with
  | some row => some { row with is_enabled := false }
  | none => none

/-- The three lifecycle states of the design document. -/
inductive TwoFactorState where
  | Disabled : TwoFactorState
  | PendingVerification : TwoFactorState
  | Enabled : TwoFactorState
deriving DecidableEq, Repr

/-- Modelled from the spec: the checkStatus derivation of section 4.3 (no
record or secret null gives Disabled; secret set with isEnabled false gives
PendingVerification; isEnabled true gives Enabled). Used to compare the
claimed status read with the boolean one the component computes. -/
def specCheckStatus : Option UserTwoFARow → TwoFactorState
  | none => TwoFactorState.Disabled
  | some r =>
    match r.secret with
    | none => TwoFactorState.Disabled
    | some _ =>
      if r.is_enabled then TwoFactorState.Enabled
      else TwoFactorState.PendingVerification

/-- Whether the persisted record currently gates login: a record exists and
is_enabled is true. -/
def effectiveProtection (db : Option UserTwoFARow) : Bool :=
  (db.map fun r => r.is_enabled).getD false

/-- The record invariant of the design document, section 3: is_enabled true
implies the secret is non-null and the backup-code set is non-empty. -/
def recordInvariant : Option UserTwoFARow → Bool
  | none => true
  | some r => !r.is_enabled || (r.secret.isSome && !r.backup_codes.isEmpty)

/-- Every existing record carries a non-null secret. This holds for every
record the component itself creates (the upsert always writes a secret). -/
def secretPresent : Option UserTwoFARow → Bool
  | none => true
  | some r => r.secret.isSome

/-- Database states reachable from the initial no-record state through the
mutating operations of the component. -/
inductive Reachable : Option UserTwoFARow → Prop where
  | init : Reachable none
  | enroll (db : Option UserTwoFARow) (rnd : Nat → Nat) :
      Reachable db → Reachable (enableTwoFactor db rnd).1
  | verify (db : Option UserTwoFARow) (code : String) (rnd : Nat → Nat) :
      Reachable db → Reachable (verifyAndEnable db code rnd).1
  | turnOff (db : Option UserTwoFARow) :
      Reachable db → Reachable (disableTwoFactor db)

/-- A concrete stored secret for concrete evaluations. -/
def sampleSecret : String := "ABCDEFGHIJKLMNOPQRSTUVWXYZ234567"

/-- A record as left by enableTwoFactor: secret stored, not yet enabled. -/
def pendingRow : UserTwoFARow :=
  { secret := some sampleSecret, is_enabled := false, backup_codes := [] }

/-- A record with 2FA fully enabled. -/
def enabledRow : UserTwoFARow :=
  { secret := some sampleSecret, is_enabled := true, backup_codes := ["OLDCODE1"] }

/-- A record whose secret column is null (representable per the data model of
the design document, though never produced by this component). -/
def noSecretRow : UserTwoFARow :=
  { secret := none, is_enabled := false, backup_codes := [] }

/-- A constant random stream: every Math.random() draw is 2^52, i.e. the
double 0.5, whose base-36 string is 0.i, so every backup code is the
one-character string I. -/
def rnd0 : Nat → Nat := fun _ => 2 ^ 52

/-- The characters backup codes are drawn from after upper-casing. -/
def backupCodeAlphabet : List Char := "0123456789ABCDEFGHIJKLMNOPQRSTUVWXYZ".data

/-- The backup-code loop always pushes exactly 8 codes. -/
theorem generateBackupCodes_length (rnd : Nat → Nat) :
    (generateBackupCodes rnd).length = 8 := by
  unfold generateBackupCodes
  rw [List.length_map, List.length_range]

/-- The backup-code list is never empty. -/
theorem generateBackupCodes_isEmpty (rnd : Nat → Nat) :
    (generateBackupCodes rnd).isEmpty = false := by
  cases hg : generateBackupCodes rnd with
  | nil =>
    have hl := generateBackupCodes_length rnd
    rw [hg] at hl
    simp at hl
  | cons a l => rfl

/-- Upper-casing any base-36 digit character lands in the 0-9A-Z alphabet;
out-of-range indices hit the default character 0, also in the alphabet. -/
theorem base36_upper_mem (d : Nat) :
    (base36Chars.getD d '0').toUpper ∈ backupCodeAlphabet := by
  by_cases hd : d < 36
  · have hall : ∀ e : Nat, e < 36 →
        (base36Chars.getD e '0').toUpper ∈ backupCodeAlphabet := by decide
    exact hall d hd
  · have h36 : base36Chars.length ≤ d := by
      have hlen : base36Chars.length = 36 := by decide
      omega
    rw [List.getD_eq_default _ _ h36]
    decide

/-- substring(2, 10) keeps at most 8 characters. -/
theorem backupCode_length_le (k : Nat) : (backupCode k).length ≤ 8 := by
  show (((fracDigitsBase36 27 k).take 8).map fun d =>
    (base36Chars.getD d '0').toUpper).length ≤ 8
  rw [List.length_map, List.length_take]
  exact min_le_left _ _

/-- Every character of a backup code lies in the 0-9A-Z alphabet. -/
theorem backupCode_chars (k : Nat) (c : Char) (hc : c ∈ (backupCode k).data) :
    c ∈ backupCodeAlphabet := by
  have hc2 : c ∈ ((fracDigitsBase36 27 k).take 8).map fun d =>
      (base36Chars.getD d '0').toUpper := hc
  obtain ⟨d, _, rfl⟩ := List.mem_map.mp hc2
  exact base36_upper_mem d

/-- A successful verifyAndEnable call returned exactly the freshly generated
backup codes. -/
theorem verifyAndEnable_success_codes (db : Option UserTwoFARow) (code : String)
    (rnd : Nat → Nat) (codes : List String)
    (h : (verifyAndEnable db code rnd).2 = VerifyOutcome.success codes) :
    codes = generateBackupCodes rnd := by
  by_cases h1 : code = ""
  · simp [verifyAndEnable, h1] at h
  · by_cases h2 : isSixDigitCode code = false
    · simp [verifyAndEnable, h1, h2] at h
    · cases db with
      | none =>
        simp [verifyAndEnable, h1, h2] at h
        exact h.symm
      | some r =>
        simp [verifyAndEnable, h1, h2] at h
        exact h.symm

/-- C1: the claim says verifyAndEnable succeeds exactly when the submitted
code equals the TOTP code derived from the stored secret and the current
30-second time step, and that every other 6-digit string fails. The code
derives nothing and takes no time input: against the same stored secret the
two distinct codes 000000 and 111111 both succeed and both enable protection,
so acceptance cannot coincide with equality to any single derived code. -/
theorem verifyAndEnable_accepts_distinct_codes :
    ("000000" : String) ≠ "111111" ∧
    (verifyAndEnable (some pendingRow) "000000" rnd0).2 =
      VerifyOutcome.success (generateBackupCodes rnd0) ∧
    (verifyAndEnable (some pendingRow) "111111" rnd0).2 =
      VerifyOutcome.success (generateBackupCodes rnd0) ∧
    effectiveProtection (verifyAndEnable (some pendingRow) "000000" rnd0).1 = true ∧
    effectiveProtection (verifyAndEnable (some pendingRow) "111111" rnd0).1 = true := by
  decide

/-- C2 counterexample: immediately after startEnrollment the stored record
derives PendingVerification under the claimed three-state reading, yet the
component status read returns the same boolean as for a user with no record
at all; it does not return a PendingVerification result. -/
theorem checkStatus_pending_equals_norecord :
    specCheckStatus (enableTwoFactor none rnd0).1 = TwoFactorState.PendingVerification ∧
    specCheckStatus none = TwoFactorState.Disabled ∧
    checkTwoFactorStatus (Except.ok (enableTwoFactor none rnd0).1) false = false ∧
    checkTwoFactorStatus (Except.ok none) false = false := by
  decide

/-- C2 amended: checkTwoFactorStatus reads only the is_enabled column and
returns the two-valued effective-protection flag; right after enableTwoFactor
it returns false (so never Enabled), and in general a pending record is
reported exactly like an absent one. -/
theorem checkStatus_two_valued (db : Option UserTwoFARow) (rnd : Nat → Nat)
    (prev : Bool) :
    checkTwoFactorStatus (Except.ok (enableTwoFactor db rnd).1) prev = false ∧
    checkTwoFactorStatus (Except.ok db) prev = effectiveProtection db := by
  constructor
  · cases db <;> rfl
  · cases db <;> rfl

/-- C3: the claim says verifyAndEnable outside PendingVerification fails with
InvalidState and leaves the record unchanged. The code performs no state
check: from an Enabled record a 6-digit submission succeeds and overwrites the
persisted backup codes, and with no record at all the zero-row update still
reports success. -/
theorem verifyAndEnable_no_state_guard :
    (verifyAndEnable (some enabledRow) "123456" rnd0).2 =
      VerifyOutcome.success (generateBackupCodes rnd0) ∧
    (verifyAndEnable (some enabledRow) "123456" rnd0).1 =
      some { enabledRow with is_enabled := true,
                             backup_codes := generateBackupCodes rnd0 } ∧
    generateBackupCodes rnd0 ≠ enabledRow.backup_codes ∧
    (verifyAndEnable none "123456" rnd0).2 =
      VerifyOutcome.success (generateBackupCodes rnd0) := by
  decide

/-- C4 counterexample: called against an Enabled record, enableTwoFactor
upserts is_enabled := false and thereby drops the effective protection, so
startEnrollment does not preserve the protection state from every prior
record state. -/
theorem enableTwoFactor_from_enabled_drops_protection :
    effectiveProtection (some enabledRow) = true ∧
    effectiveProtection (enableTwoFactor (some enabledRow) rnd0).1 = false := by
  decide

/-- C4 amended: enableTwoFactor performs no state check of its own (the UI
offers it only when the status reads not enabled); from every prior state
whose effective protection is off, the upsert with is_enabled := false leaves
the effective protection exactly as it was before the call. -/
theorem enableTwoFactor_preserves_unprotected (db : Option UserTwoFARow)
    (rnd : Nat → Nat) (h : effectiveProtection db = false) :
    effectiveProtection (enableTwoFactor db rnd).1 = effectiveProtection db := by
  rw [h]
  cases db <;> rfl

/-- Witness for the C4 amended theorem at a concrete pending record. -/
theorem enableTwoFactor_preserves_unprotected_witness :
    effectiveProtection (enableTwoFactor (some pendingRow) rnd0).1 =
      effectiveProtection (some pendingRow) :=
  enableTwoFactor_preserves_unprotected (some pendingRow) rnd0 (by decide)

/-- C5 counterexample: disableTwoFactor on an Enabled record only flips
is_enabled; the stored secret and backup codes survive, and under the claimed
three-state derivation the record lands in PendingVerification rather than
Disabled. -/
theorem disableTwoFactor_keeps_secret_and_codes :
    disableTwoFactor (some enabledRow) =
      some { secret := some sampleSecret, is_enabled := false,
             backup_codes := ["OLDCODE1"] } ∧
    specCheckStatus (disableTwoFactor (some enabledRow)) =
      TwoFactorState.PendingVerification := by
  decide

/-- C5 amended: disableTwoFactor persists is_enabled := false and leaves the
stored secret and backup codes unchanged (it does not clear them); effective
protection is off afterwards. -/
theorem disableTwoFactor_only_clears_flag (r : UserTwoFARow)
    (_h : r.is_enabled = true) :
    disableTwoFactor (some r) = some { r with is_enabled := false } ∧
    ((disableTwoFactor (some r)).map fun x => x.secret) = some r.secret ∧
    ((disableTwoFactor (some r)).map fun x => x.backup_codes) = some r.backup_codes ∧
    effectiveProtection (disableTwoFactor (some r)) = false :=
  ⟨rfl, rfl, rfl, rfl⟩

/-- Witness for the C5 amended theorem at a concrete enabled record. -/
theorem disableTwoFactor_only_clears_flag_witness :
    disableTwoFactor (some enabledRow) = some { enabledRow with is_enabled := false } ∧
    ((disableTwoFactor (some enabledRow)).map fun x => x.secret) =
      some enabledRow.secret ∧
    ((disableTwoFactor (some enabledRow)).map fun x => x.backup_codes) =
      some enabledRow.backup_codes ∧
    effectiveProtection (disableTwoFactor (some enabledRow)) = false :=
  disableTwoFactor_only_clears_flag enabledRow (by decide)

/-- C6 counterexample: a record with a null secret and is_enabled false
satisfies the invariant, yet verifyAndEnable on it succeeds and produces a
record with is_enabled true and still no secret, breaking the invariant; the
code never checks that a secret exists before enabling. -/
theorem verifyAndEnable_breaks_invariant_on_null_secret :
    recordInvariant (some noSecretRow) = true ∧
    (verifyAndEnable (some noSecretRow) "123456" rnd0).2 =
      VerifyOutcome.success (generateBackupCodes rnd0) ∧
    recordInvariant (verifyAndEnable (some noSecretRow) "123456" rnd0).1 = false := by
  decide

/-- C6 amended: enableTwoFactor and disableTwoFactor preserve the record
invariant unconditionally (checkTwoFactorStatus writes nothing, as its type
shows); verifyAndEnable preserves it on every record whose secret is non-null;
and every database state reachable through these operations from the initial
no-record state satisfies both the invariant and the non-null-secret
condition. -/
theorem lifecycle_preserves_invariant :
    (∀ (db : Option UserTwoFARow) (rnd : Nat → Nat),
      recordInvariant db = true → recordInvariant (enableTwoFactor db rnd).1 = true) ∧
    (∀ db : Option UserTwoFARow,
      recordInvariant db = true → recordInvariant (disableTwoFactor db) = true) ∧
    (∀ (db : Option UserTwoFARow) (code : String) (rnd : Nat → Nat),
      recordInvariant db = true → secretPresent db = true →
      recordInvariant (verifyAndEnable db code rnd).1 = true) ∧
    (∀ db : Option UserTwoFARow, Reachable db →
      recordInvariant db = true ∧ secretPresent db = true) := by
  have henable : ∀ (db : Option UserTwoFARow) (rnd : Nat → Nat),
      recordInvariant (enableTwoFactor db rnd).1 = true := by
    intro db rnd
    cases db <;> rfl
  have hdisable : ∀ db : Option UserTwoFARow,
      recordInvariant (disableTwoFactor db) = true := by
    intro db
    cases db <;> rfl
  have hverify : ∀ (db : Option UserTwoFARow) (code : String) (rnd : Nat → Nat),
      recordInvariant db = true → secretPresent db = true →
      recordInvariant (verifyAndEnable db code rnd).1 = true := by
    intro db code rnd hinv hsec
    by_cases h1 : code = ""
    · simpa [verifyAndEnable, h1] using hinv
    · by_cases h2 : isSixDigitCode code = false
      · simpa [verifyAndEnable, h1, h2] using hinv
      · cases db with
        | none => simp [verifyAndEnable, h1, h2, recordInvariant]
        | some r =>
          simp only [secretPresent] at hsec
          simp [verifyAndEnable, h1, h2, recordInvariant, hsec,
                generateBackupCodes_isEmpty]
  have hse : ∀ (db : Option UserTwoFARow) (rnd : Nat → Nat),
      secretPresent (enableTwoFactor db rnd).1 = true := by
    intro db rnd
    cases db <;> rfl
  have hsd : ∀ db : Option UserTwoFARow,
      secretPresent db = true → secretPresent (disableTwoFactor db) = true := by
    intro db h
    cases db with
    | none => rfl
    | some r => simpa [disableTwoFactor, secretPresent] using h
  have hsv : ∀ (db : Option UserTwoFARow) (code : String) (rnd : Nat → Nat),
      secretPresent db = true → secretPresent (verifyAndEnable db code rnd).1 = true := by
    intro db code rnd h
    by_cases h1 : code = ""
    · simpa [verifyAndEnable, h1] using h
    · by_cases h2 : isSixDigitCode code = false
      · simpa [verifyAndEnable, h1, h2] using h
      · cases db with
        | none => simp [verifyAndEnable, h1, h2, secretPresent]
        | some r =>
          simp only [secretPresent] at h
          simp [verifyAndEnable, h1, h2, secretPresent, h]
  have hreach : ∀ db : Option UserTwoFARow, Reachable db →
      recordInvariant db = true ∧ secretPresent db = true := by
    intro db h
    induction h with
    | init => exact ⟨rfl, rfl⟩
    | enroll db rnd _hr _ih => exact ⟨henable db rnd, hse db rnd⟩
    | verify db code rnd _hr ih =>
      exact ⟨hverify db code rnd ih.1 ih.2, hsv db code rnd ih.2⟩
    | turnOff db _hr ih => exact ⟨hdisable db, hsd db ih.2⟩
  exact ⟨fun db rnd _ => henable db rnd, fun db _ => hdisable db, hverify, hreach⟩

/-- Witness for the C6 amended theorem at concrete records and a concrete
reachable state. -/
theorem lifecycle_preserves_invariant_witness :
    recordInvariant (enableTwoFactor none rnd0).1 = true ∧
    recordInvariant (disableTwoFactor (some enabledRow)) = true ∧
    recordInvariant (verifyAndEnable (some pendingRow) "123456" rnd0).1 = true ∧
    (recordInvariant (enableTwoFactor none rnd0).1 = true ∧
      secretPresent (enableTwoFactor none rnd0).1 = true) :=
  ⟨lifecycle_preserves_invariant.1 none rnd0 (by decide),
   lifecycle_preserves_invariant.2.1 (some enabledRow) (by decide),
   lifecycle_preserves_invariant.2.2.1 (some pendingRow) "123456" rnd0
     (by decide) (by decide),
   lifecycle_preserves_invariant.2.2.2 (enableTwoFactor none rnd0).1
     (Reachable.enroll none rnd0 Reachable.init)⟩

/-- C7 counterexample: with a Math.random stream that repeats the value 0.5,
a successful verifyAndEnable returns eight identical backup codes, so the
returned codes are not pairwise distinct. -/
theorem generateBackupCodes_can_repeat :
    (verifyAndEnable (some pendingRow) "222222" rnd0).2 =
      VerifyOutcome.success ["I", "I", "I", "I", "I", "I", "I", "I"] ∧
    ¬ (["I", "I", "I", "I", "I", "I", "I", "I"] : List String).Nodup := by
  decide

/-- C7 amended: every successful verifyAndEnable generates and returns exactly
8 backup codes and, whenever a record exists, persists exactly those codes on
it; pairwise distinctness of the 8 codes is not guaranteed. -/
theorem confirmEnrollment_returns_eight_codes (db : Option UserTwoFARow)
    (code : String) (rnd : Nat → Nat) (codes : List String)
    (h : (verifyAndEnable db code rnd).2 = VerifyOutcome.success codes) :
    codes.length = 8 ∧
    ∀ r : UserTwoFARow, db = some r →
      (verifyAndEnable db code rnd).1 =
        some { r with is_enabled := true, backup_codes := codes } := by
  have hcodes : codes = generateBackupCodes rnd :=
    verifyAndEnable_success_codes db code rnd codes h
  constructor
  · rw [hcodes]
    exact generateBackupCodes_length rnd
  · intro r hr
    subst hr
    by_cases h1 : code = ""
    · simp [verifyAndEnable, h1] at h
    · by_cases h2 : isSixDigitCode code = false
      · simp [verifyAndEnable, h1, h2] at h
      · simp [verifyAndEnable, h1, h2, hcodes]

/-- Witness for the C7 amended theorem at a concrete pending record. -/
theorem confirmEnrollment_returns_eight_codes_witness :
    (generateBackupCodes rnd0).length = 8 ∧
    (verifyAndEnable (some pendingRow) "123456" rnd0).1 =
      some { pendingRow with is_enabled := true,
                             backup_codes := generateBackupCodes rnd0 } :=
  ⟨(confirmEnrollment_returns_eight_codes (some pendingRow) "123456" rnd0
      (generateBackupCodes rnd0) (by decide)).1,
   (confirmEnrollment_returns_eight_codes (some pendingRow) "123456" rnd0
      (generateBackupCodes rnd0) (by decide)).2 pendingRow rfl⟩

/-- C8: whenever verifyAndEnable reports a verification failure, the database
row is exactly what it was before the call; in particular a record that
derived PendingVerification still derives PendingVerification. The invalid
code throws before any database write, so nothing is mutated. -/
theorem verificationFailure_leaves_record_unchanged (db : Option UserTwoFARow)
    (code : String) (rnd : Nat → Nat) (msg : String)
    (h : (verifyAndEnable db code rnd).2 = VerifyOutcome.verificationFailed msg) :
    (verifyAndEnable db code rnd).1 = db ∧
    (specCheckStatus db = TwoFactorState.PendingVerification →
      specCheckStatus (verifyAndEnable db code rnd).1 =
        TwoFactorState.PendingVerification) := by
  have hfst : (verifyAndEnable db code rnd).1 = db := by
    by_cases h1 : code = ""
    · simp [verifyAndEnable, h1]
    · by_cases h2 : isSixDigitCode code = false
      · simp [verifyAndEnable, h1, h2]
      · cases db <;> simp [verifyAndEnable, h1, h2] at h
  refine ⟨hfst, fun hp => ?_⟩
  rw [hfst]
  exact hp

/-- Witness for C8 at a concrete pending record and a 5-digit code. -/
theorem verificationFailure_leaves_record_unchanged_witness :
    (verifyAndEnable (some pendingRow) "12345" rnd0).1 = some pendingRow ∧
    (specCheckStatus (some pendingRow) = TwoFactorState.PendingVerification →
      specCheckStatus (verifyAndEnable (some pendingRow) "12345" rnd0).1 =
        TwoFactorState.PendingVerification) :=
  verificationFailure_leaves_record_unchanged (some pendingRow) "12345" rnd0
    "Please enter a valid 6-digit code" (by decide)

/-- C9: a storage error during the status read is not surfaced: the function
logs and returns early, so the caller observes exactly the same value as after
a successful read that found no record, i.e. the Disabled reading; no result
distinct from a state exists in its output type. -/
theorem checkStatus_swallows_storage_error :
    checkTwoFactorStatus
      (Except.error (DbReadError.storageUnavailable "storage unavailable")) false = false ∧
    checkTwoFactorStatus (Except.ok none) false = false ∧
    checkTwoFactorStatus
      (Except.error (DbReadError.storageUnavailable "storage unavailable")) false =
      checkTwoFactorStatus (Except.ok none) false := by
  decide

/-- C10: every backup code is a string over 0-9 and A-Z of length at most 8,
and length exactly 8 is not guaranteed: the stream repeating the double 0.5
yields the one-character code I. -/
theorem generateBackupCodes_shape (rnd : Nat → Nat) (code : String)
    (h : code ∈ generateBackupCodes rnd) :
    (code.length ≤ 8 ∧ ∀ c ∈ code.data, c ∈ backupCodeAlphabet) ∧
    ∃ rnd2 : Nat → Nat, ∃ code2 ∈ generateBackupCodes rnd2, code2.length < 8 := by
  constructor
  · unfold generateBackupCodes at h
    obtain ⟨i, _, rfl⟩ := List.mem_map.mp h
    exact ⟨backupCode_length_le _, fun c hc => backupCode_chars _ c hc⟩
  · exact ⟨rnd0, "I", by decide, by decide⟩

/-- Witness for C10 at a concrete stream and the concrete code I. -/
theorem generateBackupCodes_shape_witness :
    ("I" : String).length ≤ 8 ∧
    ('I' ∈ backupCodeAlphabet) ∧
    ∃ rnd2 : Nat → Nat, ∃ code2 ∈ generateBackupCodes rnd2, code2.length < 8 :=
  ⟨(generateBackupCodes_shape rnd0 "I" (by decide)).1.1,
   (generateBackupCodes_shape rnd0 "I" (by decide)).1.2 'I' (by decide),
   (generateBackupCodes_shape rnd0 "I" (by decide)).2⟩

end Calmora2FA
